import Mathlib

/-!
Verification of the human-behavior emulation and quota-enforcement core of
the browser-automation repository, shallowly embedded in Lean 4.

Embedding conventions
- Wall-clock local time is a count of minutes since an arbitrary Monday
  00:00, so weekday 0 is Monday and weekday 5/6 are Saturday/Sunday,
  matching the Saturday/Sunday test in config.IsBusinessHours.
- Go float64 coordinates are modelled as rationals; the Bezier claims are
  algebraic identities of the same polynomial the code evaluates.
- Go int64 durations (time.Duration nanoseconds) are modelled as Int with
  explicit two-complement wrapping (wrap64) where the code can overflow.
- Random draws (rand.Intn, rand.Float64) are passed in as explicit
  parameters, so every function is a pure function of its inputs and the
  rng outputs, exactly as the code is a pure function of its rng stream.
- The sqlite daily_stats table is a map from date string to a row; SELECT
  is a pure read, INSERT ... ON CONFLICT DO UPDATE is a map update.
- Fallible store calls are modelled with Except: the result of
  db.GetTodayStats (or of db.Exec) is passed to the embedded function as
  an Except value, mirroring the Go error return.
-/

namespace BrowserAuto

/-! ## Time and business hours (config.IsBusinessHours, config/config.go) -/

/-- Weekday of a minute count, epoch at a Monday 00:00: 0 = Monday, ...,
5 = Saturday, 6 = Sunday. -/
def weekday (t : Nat) : Nat := t / 1440 % 7

/-- Hour of day (0..23) of a minute count. -/
def hourOf (t : Nat) : Nat := t % 1440 / 60

/-- config.IsBusinessHours: false on Saturday and Sunday, otherwise true
exactly for hours 9..16 (hour >= 9 && hour < 17). -/
def isBusinessHours (t : Nat) : Bool :=
  if weekday t = 5 || weekday t = 6 then false
  else decide (9 ≤ hourOf t) && decide (hourOf t < 17)

/-- Saturday 10:00 in the minute encoding (day 5, hour 10). -/
def satTen : Nat := 5 * 1440 + 10 * 60

/-! ## KeystrokeScheduler (stealth/typing.go) -/

/-- One emitted input event: a character sent with element.Input, or the
backspace correction sent with element.Type(rod.KeyBackspace). -/
inductive KeyEvent where
  | key (c : Char)
  | backspace
deriving DecidableEq

/-- TypingSimulator.typeRealistic: emits each character of the text in
order (sleep durations and think pauses carry no characters and are
elided from the event sequence). -/
def typeRealisticEvents (text : List Char) : List KeyEvent :=
  text.map KeyEvent.key

/-- Loop body of TypingSimulator.typeWithTypo: for each position i, if i
equals the typo position the wrong character is input and then a
backspace is typed, and afterwards the correct character is input.
Go indexes the range loop by byte offset; positions are abstracted here
as the parameter p, which covers every value the code can produce. -/
def typingLoop : List Char → Nat → Nat → Char → List KeyEvent
  | [], _, _, _ => []
  | c :: rest, i, p, tc =>
    if i = p then
      KeyEvent.key tc :: KeyEvent.backspace :: KeyEvent.key c :: typingLoop rest (i + 1) p tc
    else
      KeyEvent.key c :: typingLoop rest (i + 1) p tc

/-- TypingSimulator.typeWithTypo: text shorter than 3 characters falls
back to typeRealistic; otherwise one typo detour is planned at position
p (the code draws p = 1 + Intn(len-2)) with wrong character tc. -/
def typeWithTypoEvents (text : List Char) (p : Nat) (tc : Char) : List KeyEvent :=
  if text.length < 3 then typeRealisticEvents text
  else typingLoop text 0 p tc

/-- TypingSimulator.TypeIntoElement: non-human mode inputs the text
directly (the same character sequence as one event per character);
human mode takes the typo branch when the 0.15-probability roll
(passed as doTypo) fires, else the realistic branch. -/
def typeIntoElementEvents (humanLike doTypo : Bool) (text : List Char)
    (p : Nat) (tc : Char) : List KeyEvent :=
  if !humanLike then typeRealisticEvents text
  else if doTypo then typeWithTypoEvents text p tc
  else typeRealisticEvents text

/-- Replay semantics: a key event appends its character, a backspace
deletes the last character. -/
def applyKey (acc : List Char) : KeyEvent → List Char
  | KeyEvent.key c => acc ++ [c]
  | KeyEvent.backspace => acc.dropLast

/-- Replaying an event sequence from the empty buffer. -/
def replay (events : List KeyEvent) : List Char :=
  events.foldl applyKey []

/-! ## PathGenerator (stealth/mouse.go), float64 modelled as ℚ -/

structure Point where
  x : ℚ
  y : ℚ
deriving DecidableEq

/-- MouseController.cubicBezier: the cubic Bezier polynomial, evaluated
exactly as the code writes it. -/
def cubicBezier (t x0 y0 x1 y1 x2 y2 x3 y3 : ℚ) : Point :=
  let u := 1 - t
  let tt := t * t
  let uu := u * u
  let uuu := uu * u
  let ttt := tt * t
  { x := uuu * x0 + 3 * uu * t * x1 + 3 * u * tt * x2 + ttt * x3,
    y := uuu * y0 + 3 * uu * t * y1 + 3 * u * tt * y2 + ttt * y3 }

/-- MouseController.generateBezierPath: numPoints = 20 + Intn(10) with the
draw r passed in, the two control points are the 0.3 and 0.7 linear
interpolants perturbed by the four randomFloat(-50, 50) draws d1..d4, and
the curve is sampled at t = i / numPoints for i = 0 .. numPoints. -/
def generateBezierPath (x0 y0 x3 y3 : ℚ) (r : Nat) (d1 d2 d3 d4 : ℚ) : List Point :=
  let numPoints := 20 + r
  let x1 := x0 + (x3 - x0) * (3 / 10) + d1
  let y1 := y0 + (y3 - y0) * (3 / 10) + d2
  let x2 := x0 + (x3 - x0) * (7 / 10) + d3
  let y2 := y0 + (y3 - y0) * (7 / 10) + d4
  (List.range (numPoints + 1)).map
    (fun i : Nat => cubicBezier ((i : ℚ) / (numPoints : ℚ)) x0 y0 x1 y1 x2 y2 x3 y3)

/-! ## DelayPolicy (stealth/timing.go), Duration as wrapping int64 -/

/-- Two-complement wrap of an integer into the signed 64-bit range,
the behaviour of Go int64 arithmetic on overflow. -/
def wrap64 (n : Int) : Int := (n + 2 ^ 63) % 2 ^ 64 - 2 ^ 63

/-- Go expression time.Duration(1 << uint(attempt)): a left shift of the
64-bit value 1, which wraps at 63 and is zero from 64 on; wrap64 (2 ^ a)
has exactly these values. -/
def goShl1 (attempt : Nat) : Int := wrap64 (2 ^ attempt)

/-- Deterministic term of TimingController.ExponentialBackoff: the shifted
second count multiplied by time.Second (10^9 ns, wrapping int64), capped
at maxDelay when it exceeds it. -/
def exponentialBackoffDet (attempt : Nat) (maxDelay : Int) : Int :=
  if maxDelay < wrap64 (goShl1 attempt * 1000000000) then maxDelay
  else wrap64 (goShl1 attempt * 1000000000)

/-- TimingController.ExponentialBackoff: deterministic term plus the
jitter draw Intn(1000) milliseconds (jitterMs in [0, 1000)). -/
def exponentialBackoff (attempt : Nat) (maxDelay jitterMs : Int) : Int :=
  exponentialBackoffDet attempt maxDelay + jitterMs * 1000000

/-! ## AdmissionController (connections/connect.go RateLimiter) -/

/-- storage.DailyStats as returned by Database.GetTodayStats. -/
structure DailyStats where
  date : String
  connectionsSent : Nat
  messagesSent : Nat
  connectionsLimit : Nat
  messagesLimit : Nat
deriving DecidableEq

/-- config.LimitsConfig, the fields the rate limiter reads. -/
structure LimitsConfig where
  dailyConnections : Nat
  dailyMessages : Nat
deriving DecidableEq

/-- RateLimiter.CanSendConnection, with the result of db.GetTodayStats
passed explicitly: a store error is logged and the function returns
false; then false when the connection count reached the daily limit;
then false when business-hours-only is set and the current time is
outside the window (RateLimiter.isWithinBusinessHours); else true. -/
def canSendConnection (statsRes : Except Unit DailyStats) (limits : LimitsConfig)
    (businessHoursOnly : Bool) (now : Nat) : Bool :=
  match statsRes with
  | Except.error _ => false
  | Except.ok stats =>
    if limits.dailyConnections ≤ stats.connectionsSent then false
    else if businessHoursOnly && !isBusinessHours now then false
    else true

/-- RateLimiter.CanSendMessage: a store error yields false; then false
when the message count reached the daily limit; else true. The function
performs no business-hours check. -/
def canSendMessage (statsRes : Except Unit DailyStats) (limits : LimitsConfig) : Bool :=
  match statsRes with
  | Except.error _ => false
  | Except.ok stats =>
    if limits.dailyMessages ≤ stats.messagesSent then false
    else true

/-- The two tracked action kinds. -/
inductive ActionKind where
  | connection
  | message
deriving DecidableEq

/-- The admission check per kind, dispatching to the two limiter
functions exactly as callers do. -/
def canPerform (kind : ActionKind) (statsRes : Except Unit DailyStats)
    (limits : LimitsConfig) (businessHoursOnly : Bool) (now : Nat) : Bool :=
  match kind with
  | ActionKind.connection => canSendConnection statsRes limits businessHoursOnly now
  | ActionKind.message => canSendMessage statsRes limits

/-- RateLimiter.GetRemainingConnections: 0 on a store error, otherwise
limit minus sent clamped at 0. -/
def getRemainingConnections (statsRes : Except Unit DailyStats)
    (limits : LimitsConfig) : Int :=
  match statsRes with
  | Except.error _ => 0
  | Except.ok stats =>
    let remaining : Int := (limits.dailyConnections : Int) - (stats.connectionsSent : Int)
    if remaining < 0 then 0 else remaining

/-- Loop of RateLimiter.WaitUntilNextWindow: while the tested predicate is
false, advance the candidate by one hour, breaking once the elapsed span
exceeds 48 hours; returns nextBusinessDay.Sub(now) in minutes. The fuel
argument only bounds the recursion and is never exhausted before the
48-hour break. -/
def waitLoop (p : Nat → Bool) (now : Nat) (cand : Nat) : Nat → Nat
  | 0 => cand - now
  | fuel + 1 =>
    if p cand then cand - now
    else
      if 48 * 60 < cand + 60 - now then cand + 60 - now
      else waitLoop p now (cand + 60) fuel

/-- RateLimiter.WaitUntilNextWindow. Inside the scan loop the code calls
config.IsBusinessHours(), which reads the current wall clock, not the
advanced candidate nextBusinessDay; with the clock frozen at now for the
duration of the call, the tested predicate is therefore the constant
fun x => isBusinessHours now. The else branch returns the span to the
next midnight. -/
def waitUntilNextWindowGo (businessHoursOnly : Bool) (now : Nat) : Nat :=
  if businessHoursOnly && !isBusinessHours now then
    waitLoop (fun _ => isBusinessHours now) now now 60
  else
    (now / 1440 + 1) * 1440 - now

/-! ## Persisted counters (storage, daily_stats table) -/

/-- One row of the daily_stats table, without its date key; the schema
defaults are connections_sent 0, messages_sent 0, connections_limit 50,
messages_limit 30. -/
structure StatsRow where
  connectionsSent : Nat
  messagesSent : Nat
  connectionsLimit : Nat
  messagesLimit : Nat
deriving DecidableEq

/-- The daily_stats table: a partial map from date string to row. -/
def StatsTable := String → Option StatsRow

/-- Database.GetTodayStats, with the outcome of the SELECT passed in:
a query error is returned as is, no row yields the defaulted record for
today (0 sent, limits 50 and 30), a row is returned with today as its
date. -/
def getTodayStatsGo (q : Except Unit (Option StatsRow)) (today : String) :
    Except Unit DailyStats :=
  match q with
  | Except.error e => Except.error e
  | Except.ok none => Except.ok ⟨today, 0, 0, 50, 30⟩
  | Except.ok (some r) =>
    Except.ok ⟨today, r.connectionsSent, r.messagesSent, r.connectionsLimit, r.messagesLimit⟩

/-- Database.GetTodayStats run against a table: the SELECT reads the row
for today and leaves the table unchanged (the second component is the
table after the call). -/
def getTodayStatsDB (tbl : StatsTable) (today : String) :
    Except Unit DailyStats × StatsTable :=
  (getTodayStatsGo (Except.ok (tbl today)) today, tbl)

/-- Database.IncrementConnectionCount applied to the table: INSERT
(date, 1, 50) with schema defaults for the message columns when no row
for today exists, ON CONFLICT update connections_sent to
connections_sent + 1. Only the row keyed by today changes. -/
def incrementConnectionCount (tbl : StatsTable) (today : String) : StatsTable :=
  fun d =>
    if d = today then
      some (match tbl today with
        | none => { connectionsSent := 1, messagesSent := 0,
                    connectionsLimit := 50, messagesLimit := 30 }
        | some r => { r with connectionsSent := r.connectionsSent + 1 })
    else tbl d

/-- Database.IncrementMessageCount applied to the table: INSERT
(date, 1, 30) with schema defaults for the connection columns when no
row for today exists, ON CONFLICT update messages_sent to
messages_sent + 1. -/
def incrementMessageCount (tbl : StatsTable) (today : String) : StatsTable :=
  fun d =>
    if d = today then
      some (match tbl today with
        | none => { connectionsSent := 0, messagesSent := 1,
                    connectionsLimit := 50, messagesLimit := 30 }
        | some r => { r with messagesSent := r.messagesSent + 1 })
    else tbl d

/-- Database.IncrementConnectionCount as seen by its caller: when the
store is unavailable the db.Exec error is returned to the caller
unchanged (single attempt, no internal retry); when available the table
update is applied. -/
def runIncrementConnection (available : Bool) (tbl : StatsTable) (today : String) :
    Except Unit StatsTable :=
  if available then Except.ok (incrementConnectionCount tbl today)
  else Except.error ()

/-- Database.IncrementMessageCount as seen by its caller, with the same
error convention. -/
def runIncrementMessage (available : Bool) (tbl : StatsTable) (today : String) :
    Except Unit StatsTable :=
  if available then Except.ok (incrementMessageCount tbl today)
  else Except.error ()

/-- Connection count of an optional row, an absent row counting 0. -/
def connSentOf : Option StatsRow → Nat
  | none => 0
  | some r => r.connectionsSent

/-- Message count of an optional row, an absent row counting 0. -/
def msgSentOf : Option StatsRow → Nat
  | none => 0
  | some r => r.messagesSent

/-- The empty daily_stats table. -/
def emptyStatsTable : StatsTable := fun _ => none

/-- A one-row sample table used by concrete witnesses. -/
def sampleTable : StatsTable :=
  fun d => if d = "2026-10-10" then some ⟨3, 2, 50, 30⟩ else none

/-! ## Helper lemmas -/

lemma dropLast_append_single (l : List Char) (a : Char) :
    (l ++ [a]).dropLast = l := by
  simp

lemma foldl_typingLoop (text : List Char) : ∀ (i p : Nat) (tc : Char) (acc : List Char),
    (typingLoop text i p tc).foldl applyKey acc = acc ++ text := by
  induction text with
  | nil => intro i p tc acc; simp [typingLoop]
  | cons c rest ih =>
    intro i p tc acc
    by_cases h : i = p
    · simp only [typingLoop, if_pos h, List.foldl_cons, applyKey,
        dropLast_append_single, ih]
      simp
    · simp only [typingLoop, if_neg h, List.foldl_cons, applyKey, ih]
      simp

lemma cubicBezier_zero (x0 y0 x1 y1 x2 y2 x3 y3 : ℚ) :
    cubicBezier 0 x0 y0 x1 y1 x2 y2 x3 y3 = ⟨x0, y0⟩ := by
  simp [cubicBezier]

lemma cubicBezier_one (x0 y0 x1 y1 x2 y2 x3 y3 : ℚ) :
    cubicBezier 1 x0 y0 x1 y1 x2 y2 x3 y3 = ⟨x3, y3⟩ := by
  simp [cubicBezier]

lemma head_map_range {α : Type} (f : Nat → α) (n : Nat) :
    ((List.range (n + 1)).map f).head? = some (f 0) := by
  rw [List.range_succ_eq_map]
  simp

lemma last_map_range {α : Type} (f : Nat → α) (n : Nat) :
    ((List.range (n + 1)).map f).getLast? = some (f n) := by
  rw [List.range_succ]
  simp

lemma genPath_head (x0 y0 x3 y3 : ℚ) (r : Nat) (d1 d2 d3 d4 : ℚ) :
    (generateBezierPath x0 y0 x3 y3 r d1 d2 d3 d4).head? = some ⟨x0, y0⟩ := by
  simp only [generateBezierPath, head_map_range]
  norm_num [cubicBezier_zero]

lemma genPath_last (x0 y0 x3 y3 : ℚ) (r : Nat) (d1 d2 d3 d4 : ℚ) :
    (generateBezierPath x0 y0 x3 y3 r d1 d2 d3 d4).getLast? = some ⟨x3, y3⟩ := by
  simp only [generateBezierPath, last_map_range]
  rw [div_self (by positivity : ((20 + r : Nat) : ℚ) ≠ 0), cubicBezier_one]

lemma genPath_length (x0 y0 x3 y3 : ℚ) (r : Nat) (d1 d2 d3 d4 : ℚ) :
    (generateBezierPath x0 y0 x3 y3 r d1 d2 d3 d4).length = 21 + r := by
  simp only [generateBezierPath, List.length_map, List.length_range]
  omega

lemma wrap64_eq_self {n : Int} (h1 : -(2 ^ 63) ≤ n) (h2 : n < 2 ^ 63) :
    wrap64 n = n := by
  unfold wrap64
  have h3 : 0 ≤ n + 2 ^ 63 := by linarith
  have h4 : n + 2 ^ 63 < 2 ^ 64 := by norm_num; linarith
  rw [Int.emod_eq_of_lt h3 h4]
  ring

lemma backoffDet_eq_min {b : Nat} (hb : b ≤ 33) (maxDelay : Int) :
    exponentialBackoffDet b maxDelay = min ((2 : Int) ^ b * 10 ^ 9) maxDelay := by
  have hten : ((10 : Int) ^ 9) = 1000000000 := by norm_num
  rw [hten]
  unfold exponentialBackoffDet goShl1
  have h2b : (0 : Int) ≤ 2 ^ b := pow_nonneg (by norm_num) b
  have hpow : (2 : Int) ^ b ≤ 2 ^ 33 := pow_le_pow_right₀ one_le_two hb
  have w1 : wrap64 ((2 : Int) ^ b) = 2 ^ b :=
    wrap64_eq_self (by linarith) (lt_of_le_of_lt hpow (by norm_num))
  rw [w1]
  have hm0 : (0 : Int) ≤ 2 ^ b * 1000000000 := by positivity
  have hmul : (2 : Int) ^ b * 1000000000 ≤ 2 ^ 33 * 1000000000 :=
    mul_le_mul_of_nonneg_right hpow (by norm_num)
  have w2 : wrap64 ((2 : Int) ^ b * 1000000000) = 2 ^ b * 1000000000 :=
    wrap64_eq_self (by linarith) (lt_of_le_of_lt hmul (by norm_num))
  rw [w2]
  by_cases h : maxDelay < (2 : Int) ^ b * 1000000000
  · rw [if_pos h]
    exact (min_eq_right (le_of_lt h)).symm
  · rw [if_neg h]
    exact (min_eq_left (not_lt.mp h)).symm

lemma backoffDet_le_max (attempt : Nat) (maxDelay : Int) :
    exponentialBackoffDet attempt maxDelay ≤ maxDelay := by
  unfold exponentialBackoffDet
  by_cases h : maxDelay < wrap64 (goShl1 attempt * 1000000000)
  · rw [if_pos h]
  · rw [if_neg h]
    exact not_lt.mp h

/-! ## Claim theorems -/

/-- C1, counterexample: with business-hours-only set and the clock at
Saturday 10:00 (outside the Monday to Friday 09:00..17:00 window) and the
message quota untouched, the admission check for the message kind returns
true, while the claim requires false for every kind outside the window:
CanSendMessage performs no business-hours check. -/
theorem canPerform_message_ignores_business_hours :
    isBusinessHours satTen = false
    ∧ canPerform ActionKind.message
        (Except.ok ⟨"2026-10-10", 0, 0, 50, 30⟩) ⟨50, 30⟩ true satTen = true := by
  constructor
  · decide
  · rfl

/-- C1, amended: on a successful stats read, admission for the
connection kind is true exactly when the connection count is below its
limit and, when business-hours-only is set, the current time is inside
the window; admission for the message kind is true exactly when the
message count is below its limit, with no business-hours check. Each
equation mentions only that kind's own count, so the decision for one
kind is independent of the other kind's count. -/
theorem canPerform_characterization (s : DailyStats) (l : LimitsConfig)
    (b : Bool) (now : Nat) :
    canPerform ActionKind.connection (Except.ok s) l b now
      = (decide (s.connectionsSent < l.dailyConnections) && (!b || isBusinessHours now))
    ∧ canPerform ActionKind.message (Except.ok s) l b now
      = decide (s.messagesSent < l.dailyMessages) := by
  constructor
  · simp only [canPerform, canSendConnection]
    by_cases h1 : l.dailyConnections ≤ s.connectionsSent
    · simp [h1, Nat.not_lt.mpr h1]
    · have h2 : s.connectionsSent < l.dailyConnections := Nat.lt_of_not_le h1
      simp only [if_neg h1]
      cases b <;> cases h3 : isBusinessHours now <;> simp [h2, h3]
  · simp only [canPerform, canSendMessage]
    by_cases h1 : l.dailyMessages ≤ s.messagesSent
    · simp [h1, Nat.not_lt.mpr h1]
    · simp [h1, Nat.lt_of_not_le h1]

/-- C2, counterexample: a stats-read failure makes CanSendConnection
return the bare boolean false, the very value returned when the quota is
exhausted; the failure is not surfaced as an outcome distinct from
quota-exceeded. -/
theorem storeError_indistinguishable_from_quota :
    canSendConnection (Except.error ()) ⟨50, 30⟩ false 600
      = canSendConnection (Except.ok ⟨"2026-10-09", 50, 0, 50, 30⟩) ⟨50, 30⟩ false 600
    ∧ canSendConnection (Except.error ()) ⟨50, 30⟩ false 600 = false := by
  exact ⟨rfl, rfl⟩

/-- C2, amended: on store unavailability the admission checks return
false (the error is only logged, indistinguishable from a quota denial)
and GetRemainingConnections returns 0, while the completion-recording
increments do propagate the store error to the caller unchanged, with a
single attempt and no internal retry. -/
theorem storeError_handling (l : LimitsConfig) (b : Bool) (now : Nat)
    (tbl : StatsTable) (today : String) :
    canSendConnection (Except.error ()) l b now = false
    ∧ canSendMessage (Except.error ()) l = false
    ∧ getRemainingConnections (Except.error ()) l = 0
    ∧ runIncrementConnection false tbl today = Except.error ()
    ∧ runIncrementMessage false tbl today = Except.error () := by
  exact ⟨rfl, rfl, rfl, rfl, rfl⟩

/-- C3, code evaluated at the failing input: at Saturday 10:00 with
business-hours-only set, the scan of WaitUntilNextWindow returns a
49-hour wait, landing at Monday 11:00, although Monday 09:00 (47 hours
ahead, weekday 0, hour 9) is already inside the window; the loop tests
config.IsBusinessHours() at the unchanged current clock, so it never
detects the candidate entering the window and always runs to the
48-hour bound. -/
theorem waitUntilNextWindow_saturday_scan :
    isBusinessHours satTen = false
    ∧ waitUntilNextWindowGo true satTen = 49 * 60
    ∧ isBusinessHours (satTen + 47 * 60) = true
    ∧ weekday (satTen + 47 * 60) = 0
    ∧ hourOf (satTen + 47 * 60) = 9
    ∧ waitUntilNextWindowGo true satTen ≠ 47 * 60 := by
  decide

/-- C4: replaying the typo-branch keystroke sequence, appending each
emitted character and deleting the last buffered character at each
backspace marker, reconstructs the original text exactly, for every text
of length at least 3 and every typo position and wrong character. -/
theorem typoPlan_replay_reconstructs (text : List Char) (p : Nat) (tc : Char)
    (h : 3 ≤ text.length) :
    replay (typeWithTypoEvents text p tc) = text := by
  unfold replay typeWithTypoEvents
  rw [if_neg (by omega)]
  rw [foldl_typingLoop text 0 p tc []]
  simp

/-- C4, witness at the concrete text abc with typo position 1. -/
theorem typoPlan_replay_reconstructs_witness :
    3 ≤ (['a', 'b', 'c'] : List Char).length
    ∧ replay (typeWithTypoEvents ['a', 'b', 'c'] 1 'x') = ['a', 'b', 'c'] :=
  ⟨by decide, typoPlan_replay_reconstructs ['a', 'b', 'c'] 1 'x' (by decide)⟩

/-- C5, counterexample: with start equal to end, the generated path is
not a single point; the code never special-cases equal endpoints and
always emits numPoints + 1 points (here 21 with the smallest draw). -/
theorem samePoint_path_not_single :
    (generateBezierPath 0 0 0 0 0 0 0 0 0).length ≠ 1 := by
  rw [genPath_length]
  omega

/-- C5, amended: with start equal to end the generator returns a path of
21 + r points (r the Intn(10) draw), whose first and last points both
equal the requested coordinate; generation is a total function of its
inputs and rng draws, with no failure case. -/
theorem samePoint_path_shape (x y : ℚ) (r : Nat) (d1 d2 d3 d4 : ℚ) :
    (generateBezierPath x y x y r d1 d2 d3 d4).length = 21 + r
    ∧ (generateBezierPath x y x y r d1 d2 d3 d4).head? = some ⟨x, y⟩
    ∧ (generateBezierPath x y x y r d1 d2 d3 d4).getLast? = some ⟨x, y⟩ :=
  ⟨genPath_length x y x y r d1 d2 d3 d4,
   genPath_head x y x y r d1 d2 d3 d4,
   genPath_last x y x y r d1 d2 d3 d4⟩

/-- C6: for text shorter than 3 characters the typing planner, even with
the typo roll taken, produces exactly the plain emission sequence, with
no backspace correction marker anywhere in it. -/
theorem shortText_plain_plan (text : List Char) (p : Nat) (tc : Char)
    (h : text.length < 3) :
    typeIntoElementEvents true true text p tc = typeRealisticEvents text
    ∧ KeyEvent.backspace ∉ typeIntoElementEvents true true text p tc := by
  have e : typeIntoElementEvents true true text p tc = typeRealisticEvents text := by
    simp [typeIntoElementEvents, typeWithTypoEvents, h]
  refine ⟨e, ?_⟩
  rw [e]
  simp [typeRealisticEvents]

/-- C6, witness at the concrete two-character text hi. -/
theorem shortText_plain_plan_witness :
    (['h', 'i'] : List Char).length < 3
    ∧ (typeIntoElementEvents true true ['h', 'i'] 0 'z' = typeRealisticEvents ['h', 'i']
       ∧ KeyEvent.backspace ∉ typeIntoElementEvents true true ['h', 'i'] 0 'z') :=
  ⟨by decide, shortText_plain_plan ['h', 'i'] 0 'z' (by decide)⟩

/-- C7, counterexample: at attempt 34 the shifted second count times
10^9 nanoseconds overflows int64 and goes negative, so the deterministic
term drops below its attempt-33 value and differs from
min(2^34 seconds, maxDelay); the claimed identity and monotonicity fail
for unrestricted attempts. -/
theorem backoff_overflow_at_34 :
    exponentialBackoffDet 34 (30 * 10 ^ 9) < exponentialBackoffDet 33 (30 * 10 ^ 9)
    ∧ exponentialBackoffDet 34 (30 * 10 ^ 9)
        ≠ min ((2 : Int) ^ 34 * 10 ^ 9) (30 * 10 ^ 9) := by
  decide

/-- C7, amended: for attempts up to 33, where 2 to the attempt seconds
still fits in int64 nanoseconds, the deterministic term equals
min(2 ^ attempt seconds, maxDelay) and is non-decreasing in the attempt;
and for every attempt whatsoever, with any jitter draw below 1000 ms,
the returned value never exceeds maxDelay plus 1000 ms, because the cap
comparison bounds the deterministic term by maxDelay even when the
multiplication has overflowed. -/
theorem backoff_det_bounded_range (a b : Nat) (maxDelay jitterMs : Int)
    (hab : a ≤ b) (hb : b ≤ 33) (hj0 : 0 ≤ jitterMs) (hj1 : jitterMs < 1000) :
    exponentialBackoffDet b maxDelay = min ((2 : Int) ^ b * 10 ^ 9) maxDelay
    ∧ exponentialBackoffDet a maxDelay ≤ exponentialBackoffDet b maxDelay
    ∧ ∀ attempt : Nat,
        exponentialBackoff attempt maxDelay jitterMs ≤ maxDelay + 1000 * 10 ^ 6 := by
  refine ⟨backoffDet_eq_min hb maxDelay, ?_, ?_⟩
  · rw [backoffDet_eq_min hb maxDelay, backoffDet_eq_min (le_trans hab hb) maxDelay]
    have hpow : (2 : Int) ^ a ≤ 2 ^ b := pow_le_pow_right₀ one_le_two hab
    have hmul : (2 : Int) ^ a * 10 ^ 9 ≤ 2 ^ b * 10 ^ 9 :=
      mul_le_mul_of_nonneg_right hpow (by norm_num)
    exact min_le_min hmul le_rfl
  · intro attempt
    unfold exponentialBackoff
    have h1 : exponentialBackoffDet attempt maxDelay ≤ maxDelay :=
      backoffDet_le_max attempt maxDelay
    have h2 : jitterMs * 1000000 ≤ 999 * 1000000 :=
      mul_le_mul_of_nonneg_right (by linarith) (by norm_num)
    linarith

/-- C7, witness at attempts 1 and 2 with maxDelay 30 seconds and a
500 ms jitter draw, the universal bound conjunct instantiated at the
overflowing attempt 34. -/
theorem backoff_det_bounded_range_witness :
    (1 : Nat) ≤ 2 ∧ (2 : Nat) ≤ 33 ∧ (0 : Int) ≤ 500 ∧ (500 : Int) < 1000
    ∧ (exponentialBackoffDet 2 (30 * 10 ^ 9) = min ((2 : Int) ^ 2 * 10 ^ 9) (30 * 10 ^ 9)
       ∧ exponentialBackoffDet 1 (30 * 10 ^ 9) ≤ exponentialBackoffDet 2 (30 * 10 ^ 9)
       ∧ exponentialBackoff 34 (30 * 10 ^ 9) 500 ≤ 30 * 10 ^ 9 + 1000 * 10 ^ 6) :=
  ⟨by decide, by decide, by decide, by decide,
   (backoff_det_bounded_range 1 2 (30 * 10 ^ 9) 500 (by decide) (by decide)
      (by decide) (by decide)).1,
   (backoff_det_bounded_range 1 2 (30 * 10 ^ 9) 500 (by decide) (by decide)
      (by decide) (by decide)).2.1,
   (backoff_det_bounded_range 1 2 (30 * 10 ^ 9) 500 (by decide) (by decide)
      (by decide) (by decide)).2.2 34⟩

/-- C8: each increment raises its own kind's count by exactly one at
today's key, leaves the other kind's count unchanged, never decrements
any count, leaves every row keyed by a different date untouched (a date
rollover therefore creates a fresh row instead of mutating a past one),
and creates today's row with the schema defaults when it is absent. -/
theorem counters_monotone_and_rollover (tbl : StatsTable) (today d : String) :
    connSentOf (tbl d) ≤ connSentOf (incrementConnectionCount tbl today d)
    ∧ msgSentOf (incrementConnectionCount tbl today d) = msgSentOf (tbl d)
    ∧ connSentOf (incrementConnectionCount tbl today today) = connSentOf (tbl today) + 1
    ∧ (d ≠ today → incrementConnectionCount tbl today d = tbl d)
    ∧ msgSentOf (tbl d) ≤ msgSentOf (incrementMessageCount tbl today d)
    ∧ connSentOf (incrementMessageCount tbl today d) = connSentOf (tbl d)
    ∧ msgSentOf (incrementMessageCount tbl today today) = msgSentOf (tbl today) + 1
    ∧ (d ≠ today → incrementMessageCount tbl today d = tbl d)
    ∧ (tbl today = none → incrementConnectionCount tbl today today = some ⟨1, 0, 50, 30⟩) := by
  refine ⟨?_, ?_, ?_, ?_, ?_, ?_, ?_, ?_, ?_⟩
  · by_cases hd : d = today
    · subst hd
      cases h : tbl d <;> simp [incrementConnectionCount, h, connSentOf]
    · simp [incrementConnectionCount, hd]
  · by_cases hd : d = today
    · subst hd
      cases h : tbl d <;> simp [incrementConnectionCount, h, msgSentOf]
    · simp [incrementConnectionCount, hd]
  · cases h : tbl today <;> simp [incrementConnectionCount, h, connSentOf]
  · intro hd
    simp [incrementConnectionCount, hd]
  · by_cases hd : d = today
    · subst hd
      cases h : tbl d <;> simp [incrementMessageCount, h, msgSentOf]
    · simp [incrementMessageCount, hd]
  · by_cases hd : d = today
    · subst hd
      cases h : tbl d <;> simp [incrementMessageCount, h, connSentOf]
    · simp [incrementMessageCount, hd]
  · cases h : tbl today <;> simp [incrementMessageCount, h, msgSentOf]
  · intro hd
    simp [incrementMessageCount, hd]
  · intro h
    simp [incrementConnectionCount, h]

/-- C8, witness: a past date's row is untouched by an increment keyed to
a later today. -/
theorem counters_monotone_and_rollover_witness :
    incrementConnectionCount sampleTable "2026-10-11" "2026-10-10"
      = sampleTable "2026-10-10" :=
  (counters_monotone_and_rollover sampleTable "2026-10-11" "2026-10-10").2.2.2.1
    (by decide)

/-- C10: when no daily_stats row exists for today, reading today's stats
returns the defaulted record for today with both sent counts 0 and
limits 50 and 30, as a successful result rather than an error, and the
table after the read is unchanged, so the read persists nothing. -/
theorem getTodayStats_defaults (tbl : StatsTable) (today : String)
    (h : tbl today = none) :
    getTodayStatsDB tbl today = (Except.ok ⟨today, 0, 0, 50, 30⟩, tbl) := by
  unfold getTodayStatsDB getTodayStatsGo
  rw [h]

/-- C10, witness on the empty table. -/
theorem getTodayStats_defaults_witness :
    emptyStatsTable "2026-10-11" = none
    ∧ getTodayStatsDB emptyStatsTable "2026-10-11"
        = (Except.ok ⟨"2026-10-11", 0, 0, 50, 30⟩, emptyStatsTable) :=
  ⟨rfl, getTodayStats_defaults emptyStatsTable "2026-10-11" rfl⟩

/-- C9: the curved path has its first point equal to the start anchor
and its last point equal to the end anchor, exactly (hence within 1e-6),
because the cubic Bezier polynomial evaluates to the start anchor at
parameter 0 and to the end anchor at parameter 1 for every choice of the
two control points. -/
theorem bezier_endpoints (x0 y0 x3 y3 : ℚ) (r : Nat) (d1 d2 d3 d4 : ℚ) :
    (generateBezierPath x0 y0 x3 y3 r d1 d2 d3 d4).head? = some ⟨x0, y0⟩
    ∧ (generateBezierPath x0 y0 x3 y3 r d1 d2 d3 d4).getLast? = some ⟨x3, y3⟩
    ∧ (∀ x1 y1 x2 y2 : ℚ, cubicBezier 0 x0 y0 x1 y1 x2 y2 x3 y3 = ⟨x0, y0⟩
        ∧ cubicBezier 1 x0 y0 x1 y1 x2 y2 x3 y3 = ⟨x3, y3⟩) :=
  ⟨genPath_head x0 y0 x3 y3 r d1 d2 d3 d4,
   genPath_last x0 y0 x3 y3 r d1 d2 d3 d4,
   fun x1 y1 x2 y2 =>
     ⟨cubicBezier_zero x0 y0 x1 y1 x2 y2 x3 y3,
      cubicBezier_one x0 y0 x1 y1 x2 y2 x3 y3⟩⟩

end BrowserAuto
